import Mathlib

/-!
Shallow embedding of the whisper_transcriber repository
(src/whisperx_transcriber/transcriber.py and src/whisperx_transcriber/gui.py).

The repository defines the class WhisperXTranscriber twice, once in each of
the two files, with almost identical bodies; both versions are embedded here,
in the namespaces Transcriber (transcriber.py) and Gui (gui.py).

Calls into the wrapped libraries (whisperx, torch, pyannote, yaml, os.path)
are modelled by an oracle structure ExtWorld of total functions returning
Except PyErr _ : each field stands for one call site into code outside the
repository and may either return a value or raise. Opaque objects owned by
those libraries (audio buffers, segment lists, result dictionaries, pipeline
handles) are modelled as natural-number tokens; the only structure the
repository itself inspects is the model_name attribute of a loaded acoustic
model and the language_code key of the alignment metadata, so those two are
record types. Python print logging is I/O and is not modelled; every other
effect of the methods (field updates, return values, raised exceptions) is
modelled by explicit state passing.

One point that matters below: transcriber.py never imports yaml, yet its
load_diarize_model calls yaml.safe_load, so in that file the call raises
NameError whenever the body is reached; gui.py does import yaml.
-/

/-- A raised Python exception, as far as the embedded code distinguishes
raised values: NameError for an undefined global, TypeError and attribute
errors raised by Python itself on None operands, and an opaque error raised
by a wrapped library call (identified by a numeric token). -/
inductive PyErr where
  | nameError (ident : String)
  | typeError (msg : String)
  | attrErr (msg : String)
  | libErr (code : Nat)
deriving DecidableEq

/-- The loaded acoustic model object. The repository reads exactly one
attribute of it, model_name (transcriber.py line 19). -/
structure AcousticModel where
  model_name : String
deriving DecidableEq

/-- The alignment metadata object returned by whisperx.load_align_model.
The repository reads exactly one key of it, language_code. -/
structure AlignMetadata where
  language_code : String
deriving DecidableEq

/-- Opaque audio buffer returned by whisperx.load_audio. -/
abbrev AudioData := Nat
/-- Opaque alignment model handle. -/
abbrev AlignModelObj := Nat
/-- Opaque diarization pipeline handle (the instantiated model). -/
abbrev DiarizeModelObj := Nat
/-- Opaque SpeakerDiarization pipeline object before instantiation. -/
abbrev DiaPipeline := Nat
/-- Opaque open file handle. -/
abbrev FileHandle := Nat
/-- Opaque parsed yaml configuration. -/
abbrev YamlConfig := Nat
/-- Opaque value of the pipeline entry of the parsed configuration. -/
abbrev PipelineConfig := Nat
/-- Opaque segment list, the segments entry of a result dictionary. -/
abbrev SegmentList := Nat
/-- Opaque diarization segments returned by the pipeline call. -/
abbrev DiaSegments := Nat
/-- Opaque result dictionary produced by transcription, alignment or
speaker assignment. -/
abbrev ResultDict := Nat

/-- The argument the diarization pipeline object is called with:
transcriber.py passes the loaded audio buffer, gui.py passes the audio
file path string. -/
inductive DiarizeArg where
  | audioArg (a : AudioData)
  | pathArg (p : String)
deriving DecidableEq

/-- The external world: one field per call site into code outside the
repository. Each call either returns a value or raises. -/
structure ExtWorld where
  path_exists : String → Bool
  whisperx_load_model : String → String → String → Except PyErr AcousticModel
  whisperx_load_audio : String → Except PyErr AudioData
  model_transcribe : AcousticModel → AudioData → Nat → Except PyErr ResultDict
  result_language : ResultDict → Except PyErr String
  result_segments : ResultDict → Except PyErr SegmentList
  whisperx_load_align_model : String → String → Except PyErr (AlignModelObj × AlignMetadata)
  whisperx_align : SegmentList → Option AlignModelObj → Option AlignMetadata →
    AudioData → String → Bool → Except PyErr ResultDict
  speaker_diarization_init : String → String → String → Except PyErr DiaPipeline
  open_read : String → Except PyErr FileHandle
  yaml_safe_load : FileHandle → Except PyErr YamlConfig
  config_pipeline : YamlConfig → Except PyErr PipelineConfig
  pipeline_instantiate : DiaPipeline → PipelineConfig → Except PyErr DiarizeModelObj
  diarize_run : DiarizeModelObj → DiarizeArg → Except PyErr DiaSegments
  assign_word_speakers : DiaSegments → ResultDict → Except PyErr ResultDict
  dict_truthy : ResultDict → Bool

/-- The mutable fields of a WhisperXTranscriber object (identical field list
in both files). -/
structure TState where
  device : String
  compute_type : String
  model : Option AcousticModel
  align_model : Option AlignModelObj
  align_metadata : Option AlignMetadata
  diarize_model : Option DiarizeModelObj
  model_name : String
deriving DecidableEq

/-- The state built by WhisperXTranscriber.__init__, given the two torch
queries it performs (cuda availability and whether the device capability
major version is at least 7). -/
def initState (cuda_available : Bool) (cap_ge7 : Bool) : TState :=
  { device := if cuda_available then "cuda" else "cpu"
  , compute_type := if cuda_available && cap_ge7 then "float16" else "int8"
  , model := none
  , align_model := none
  , align_metadata := none
  , diarize_model := none
  , model_name := "small.en" }

/-- The models directory path passed to the diarization constructor calls. -/
def models_path : String := "whisperx_transcriber/models"

/-- Path of the segmentation checkpoint. -/
def segmentation_path : String := models_path ++ "/segmentation-3.0/pytorch_model.bin"

/-- Path of the speaker-embedding checkpoint. -/
def embedding_path : String := models_path ++ "/wespeaker-voxceleb-resnet34-LM/pytorch_model.bin"

/-- Path of the diarization configuration file. -/
def diarize_config_path : String := models_path ++ "/speaker-diarization-3.1/config.yaml"

/-- The reload condition of load_model, transcriber.py line 19:
self.model is None or self.model.model_name != self.model_name. -/
def needs_model_load (s : TState) : Bool :=
  match s.model with
  | none => true
  | some m => m.model_name != s.model_name

/-- The reload condition of load_align_model, transcriber.py line 25:
align_model is None, or the language_code entry of align_metadata differs
from the requested language code. Evaluating the condition itself raises
when align_model is set but align_metadata is still None, because the code
subscripts align_metadata unconditionally in that branch. -/
def needs_align_load (s : TState) (language_code : String) : Except PyErr Bool :=
  match s.align_model with
  | none => .ok true
  | some _ =>
    match s.align_metadata with
    | none => .error (PyErr.typeError "NoneType object is not subscriptable")
    | some md => .ok (md.language_code != language_code)

namespace Transcriber

/-- transcriber.py lines 18 to 22: reload the acoustic model when no model is
cached or the cached model name differs from the model_name field. -/
def load_model (E : ExtWorld) (s : TState) : Except PyErr TState :=
  if needs_model_load s then
    match E.whisperx_load_model s.model_name s.device s.compute_type with
    | .error e => .error e
    | .ok m => .ok { s with model := some m }
  else
    .ok s

/-- transcriber.py lines 24 to 28: reload the alignment model when none is
cached or the cached metadata is for another language; on success both
align_model and align_metadata are assigned together. -/
def load_align_model (E : ExtWorld) (s : TState) (language_code : String) :
    Except PyErr TState :=
  match needs_align_load s language_code with
  | .error e => .error e
  | .ok false => .ok s
  | .ok true =>
    match E.whisperx_load_align_model language_code s.device with
    | .error e => .error e
    | .ok (am, md) => .ok { s with align_model := some am, align_metadata := some md }

/-- transcriber.py lines 30 to 47: when no diarization pipeline is cached,
build a SpeakerDiarization pipeline and open the configuration file; the
next statement calls yaml.safe_load, but transcriber.py never imports yaml,
so reaching that statement raises NameError and the diarize_model field is
never assigned in this file. -/
def load_diarize_model (E : ExtWorld) (s : TState) : Except PyErr TState :=
  match s.diarize_model with
  | some _ => .ok s
  | none =>
    match E.speaker_diarization_init segmentation_path embedding_path
        "AgglomerativeClustering" with
    | .error e => .error e
    | .ok _pipeline =>
      match E.open_read diarize_config_path with
      | .error e => .error e
      | .ok _f => .error (PyErr.nameError "yaml")

/-- transcriber.py lines 60 to 62, the alignment stage of the try block:
read the language of the transcription result, reload the alignment model
if needed, then call whisperx.align on the segments of the result with
whatever the align_model and align_metadata fields now hold. The returned
state is the state reached even when a step raises. -/
def align_part (E : ExtWorld) (s : TState) (audio : AudioData) (result : ResultDict) :
    Except PyErr ResultDict × TState :=
  match E.result_language result with
  | .error e => (.error e, s)
  | .ok language =>
    match load_align_model E s language with
    | .error e => (.error e, s)
    | .ok s1 =>
      match E.result_segments result with
      | .error e => (.error e, s1)
      | .ok segs =>
        match E.whisperx_align segs s1.align_model s1.align_metadata audio
            s1.device false with
        | .error e => (.error e, s1)
        | .ok r => (.ok r, s1)

/-- transcriber.py lines 64 to 67, the diarization stage of the try block:
ensure the diarization pipeline is loaded, call it on the loaded audio
buffer, then assign word speakers to the current result. Calling the field
while it is still None raises a TypeError. -/
def diarize_part (E : ExtWorld) (s : TState) (audio : AudioData) (result : ResultDict) :
    Except PyErr ResultDict × TState :=
  match load_diarize_model E s with
  | .error e => (.error e, s)
  | .ok s1 =>
    match s1.diarize_model with
    | none => (.error (PyErr.typeError "NoneType object is not callable"), s1)
    | some dm =>
      match E.diarize_run dm (DiarizeArg.audioArg audio) with
      | .error e => (.error e, s1)
      | .ok dsegs =>
        match E.assign_word_speakers dsegs result with
        | .error e => (.error e, s1)
        | .ok r => (.ok r, s1)

/-- transcriber.py lines 56 to 69, the body of the try block of
transcribe_audio: load the audio, transcribe it with the cached model
(batch size 16), then run the optional alignment and diarization stages.
The returned state is the state reached even when a step raises. -/
def try_body (E : ExtWorld) (s : TState) (audio_file_path : String)
    (align_timestamps : Bool) (diarize : Bool) :
    Except PyErr ResultDict × TState :=
  match E.whisperx_load_audio audio_file_path with
  | .error e => (.error e, s)
  | .ok audio =>
    match s.model with
    | none => (.error (PyErr.attrErr "NoneType object has no attribute transcribe"), s)
    | some m =>
      match E.model_transcribe m audio 16 with
      | .error e => (.error e, s)
      | .ok result0 =>
        match (if align_timestamps then align_part E s audio result0
               else (.ok result0, s)) with
        | (.error e, s1) => (.error e, s1)
        | (.ok result1, s1) =>
          if diarize then diarize_part E s1 audio result1 else (.ok result1, s1)

/-- transcriber.py lines 49 to 74: return None for a missing file, call
load_model outside the try block (so its exceptions propagate), then run the
try block; an exception inside the try block is caught and turned into a
None result, keeping whatever state the pipeline reached. -/
def transcribe_audio (E : ExtWorld) (s : TState) (audio_file_path : String)
    (align_timestamps : Bool) (diarize : Bool) :
    Except PyErr (Option ResultDict) × TState :=
  if !E.path_exists audio_file_path then
    (.ok none, s)
  else
    match load_model E s with
    | .error e => (.error e, s)
    | .ok s0 =>
      match try_body E s0 audio_file_path align_timestamps diarize with
      | (.ok r, s1) => (.ok (some r), s1)
      | (.error _e, s1) => (.ok none, s1)

/-- transcriber.py lines 76 to 78: set model_name and clear the cached
acoustic model to force a reload. -/
def set_model (s : TState) (model_name : String) : TState :=
  { s with model_name := model_name, model := none }

end Transcriber

namespace Gui

/-- gui.py lines 22 to 26: textually identical to the transcriber.py
version of load_model. -/
def load_model (E : ExtWorld) (s : TState) : Except PyErr TState :=
  if needs_model_load s then
    match E.whisperx_load_model s.model_name s.device s.compute_type with
    | .error e => .error e
    | .ok m => .ok { s with model := some m }
  else
    .ok s

/-- gui.py lines 28 to 32: textually identical to the transcriber.py
version of load_align_model. -/
def load_align_model (E : ExtWorld) (s : TState) (language_code : String) :
    Except PyErr TState :=
  match needs_align_load s language_code with
  | .error e => .error e
  | .ok false => .ok s
  | .ok true =>
    match E.whisperx_load_align_model language_code s.device with
    | .error e => .error e
    | .ok (am, md) => .ok { s with align_model := some am, align_metadata := some md }

/-- gui.py lines 34 to 52: same as the transcriber.py version except that
gui.py imports yaml, so the configuration is actually parsed and the
pipeline is instantiated and cached. -/
def load_diarize_model (E : ExtWorld) (s : TState) : Except PyErr TState :=
  match s.diarize_model with
  | some _ => .ok s
  | none =>
    match E.speaker_diarization_init segmentation_path embedding_path
        "AgglomerativeClustering" with
    | .error e => .error e
    | .ok pipeline =>
      match E.open_read diarize_config_path with
      | .error e => .error e
      | .ok f =>
        match E.yaml_safe_load f with
        | .error e => .error e
        | .ok config =>
          match E.config_pipeline config with
          | .error e => .error e
          | .ok pcfg =>
            match E.pipeline_instantiate pipeline pcfg with
            | .error e => .error e
            | .ok dm => .ok { s with diarize_model := some dm }

/-- gui.py lines 65 to 67, the alignment stage: textually identical to the
transcriber.py version. -/
def align_part (E : ExtWorld) (s : TState) (audio : AudioData) (result : ResultDict) :
    Except PyErr ResultDict × TState :=
  match E.result_language result with
  | .error e => (.error e, s)
  | .ok language =>
    match load_align_model E s language with
    | .error e => (.error e, s)
    | .ok s1 =>
      match E.result_segments result with
      | .error e => (.error e, s1)
      | .ok segs =>
        match E.whisperx_align segs s1.align_model s1.align_metadata audio
            s1.device false with
        | .error e => (.error e, s1)
        | .ok r => (.ok r, s1)

/-- gui.py lines 69 to 72, the diarization stage: unlike transcriber.py,
the pipeline object is called on the audio file path, not on the loaded
audio buffer. -/
def diarize_part (E : ExtWorld) (s : TState) (audio_file_path : String)
    (result : ResultDict) : Except PyErr ResultDict × TState :=
  match load_diarize_model E s with
  | .error e => (.error e, s)
  | .ok s1 =>
    match s1.diarize_model with
    | none => (.error (PyErr.typeError "NoneType object is not callable"), s1)
    | some dm =>
      match E.diarize_run dm (DiarizeArg.pathArg audio_file_path) with
      | .error e => (.error e, s1)
      | .ok dsegs =>
        match E.assign_word_speakers dsegs result with
        | .error e => (.error e, s1)
        | .ok r => (.ok r, s1)

/-- gui.py lines 61 to 74, the body of the try block of transcribe_audio. -/
def try_body (E : ExtWorld) (s : TState) (audio_file_path : String)
    (align_timestamps : Bool) (diarize : Bool) :
    Except PyErr ResultDict × TState :=
  match E.whisperx_load_audio audio_file_path with
  | .error e => (.error e, s)
  | .ok audio =>
    match s.model with
    | none => (.error (PyErr.attrErr "NoneType object has no attribute transcribe"), s)
    | some m =>
      match E.model_transcribe m audio 16 with
      | .error e => (.error e, s)
      | .ok result0 =>
        match (if align_timestamps then align_part E s audio result0
               else (.ok result0, s)) with
        | (.error e, s1) => (.error e, s1)
        | (.ok result1, s1) =>
          if diarize then diarize_part E s1 audio_file_path result1
          else (.ok result1, s1)

/-- gui.py lines 54 to 79: same shape as the transcriber.py version of
transcribe_audio, load_model again outside the try block. -/
def transcribe_audio (E : ExtWorld) (s : TState) (audio_file_path : String)
    (align_timestamps : Bool) (diarize : Bool) :
    Except PyErr (Option ResultDict) × TState :=
  if !E.path_exists audio_file_path then
    (.ok none, s)
  else
    match load_model E s with
    | .error e => (.error e, s)
    | .ok s0 =>
      match try_body E s0 audio_file_path align_timestamps diarize with
      | (.ok r, s1) => (.ok (some r), s1)
      | (.error _e, s1) => (.ok none, s1)

/-- gui.py lines 81 to 83: textually identical to the transcriber.py
version of set_model. -/
def set_model (s : TState) (model_name : String) : TState :=
  { s with model_name := model_name, model := none }

/-- gui.py lines 176 to 178, MainWindow.change_model: assigns the same two
transcriber fields that set_model assigns. -/
def change_model (s : TState) (model_name : String) : TState :=
  { s with model_name := model_name, model := none }

end Gui

/-- A signal emitted by TranscriptionThread. -/
inductive Emit where
  | transcription_complete (result : ResultDict)
  | transcription_error (message : String)
deriving DecidableEq

/-- The string produced by str(e) for a raised exception; the exact text
only matters in that the thread forwards it to the error signal. -/
def PyErr.message : PyErr → String
  | .nameError x => "name " ++ x ++ " is not defined"
  | .typeError m => m
  | .attrErr m => m
  | .libErr c => "library error " ++ toString c

namespace TranscriptionThread

/-- gui.py lines 97 to 105, TranscriptionThread.run: call transcribe_audio
on the transcriber held by the thread; emit transcription_complete with the
result when the result is truthy, emit transcription_error with a fixed
message when it is falsy (None or an empty dictionary), and emit
transcription_error with str(e) when transcribe_audio raised. Returns the
emitted signals together with the transcriber state after the call. -/
def run (E : ExtWorld) (s : TState) (audio_file : String)
    (align_timestamps : Bool) (diarize : Bool) : List Emit × TState :=
  match Gui.transcribe_audio E s audio_file align_timestamps diarize with
  | (.ok (some result), s1) =>
    if E.dict_truthy result then
      ([Emit.transcription_complete result], s1)
    else
      ([Emit.transcription_error
          "Transcription failed. Please check the console for errors."], s1)
  | (.ok none, s1) =>
    ([Emit.transcription_error
        "Transcription failed. Please check the console for errors."], s1)
  | (.error e, s1) =>
    ([Emit.transcription_error (PyErr.message e)], s1)

end TranscriptionThread

deriving instance DecidableEq for Except

/-- A fully successful external world: every call returns a value, the
diarization pipeline answers with different segment tokens depending on
whether it is handed an audio buffer or a path string, and every result
dictionary is truthy. -/
def extOK : ExtWorld :=
  { path_exists := fun _ => true
  , whisperx_load_model := fun n _ _ => .ok { model_name := n }
  , whisperx_load_audio := fun _ => .ok 7
  , model_transcribe := fun _ _ _ => .ok 10
  , result_language := fun _ => .ok "en"
  , result_segments := fun _ => .ok 3
  , whisperx_load_align_model := fun lc _ => .ok (4, { language_code := lc })
  , whisperx_align := fun _ _ _ _ _ _ => .ok 11
  , speaker_diarization_init := fun _ _ _ => .ok 5
  , open_read := fun _ => .ok 6
  , yaml_safe_load := fun _ => .ok 8
  , config_pipeline := fun _ => .ok 9
  , pipeline_instantiate := fun _ _ => .ok 12
  , diarize_run := fun _ a =>
      match a with
      | .audioArg _ => .ok 20
      | .pathArg _ => .ok 21
  , assign_word_speakers := fun dsegs _ => .ok (100 + dsegs)
  , dict_truthy := fun _ => true }

/-- Like extOK, but loading the acoustic model raises. -/
def extLoadFail : ExtWorld :=
  { extOK with whisperx_load_model := fun _ _ _ => .error (PyErr.libErr 1) }

/-- Like extOK, but the whisperx.align inference call raises. -/
def extAlignFail : ExtWorld :=
  { extOK with whisperx_align := fun _ _ _ _ _ _ => .error (PyErr.libErr 2) }

/-- Like extOK, but no audio file exists. -/
def extNoFile : ExtWorld :=
  { extOK with path_exists := fun _ => false }

/-- The initial transcriber state on a cpu-only machine. -/
def s0 : TState := initState false false

/-- s0 after the default acoustic model has been loaded by extOK. -/
def s0m : TState := { s0 with model := some { model_name := "small.en" } }

/-- s0 with a cached diarization pipeline. -/
def sDia : TState := { s0 with diarize_model := some 12 }

/-- s0m after the alignment model for language en has also been loaded. -/
def sAligned : TState :=
  { s0m with align_model := some 4, align_metadata := some { language_code := "en" } }

/-- The state relation maintained by the stages inside the try block: the
acoustic model and the constructor-set fields are untouched, cached
alignment objects are never cleared, and a cached diarization pipeline is
never replaced. -/
def StagePreserves (s s1 : TState) : Prop :=
  s1.model = s.model ∧ s1.device = s.device ∧ s1.compute_type = s.compute_type ∧
  s1.model_name = s.model_name ∧
  (s.align_model.isSome → s1.align_model.isSome) ∧
  (s.align_metadata.isSome → s1.align_metadata.isSome) ∧
  (∀ dm, s.diarize_model = some dm → s1.diarize_model = some dm)

theorem stagePreserves_refl (s : TState) : StagePreserves s s :=
  ⟨Eq.refl _, Eq.refl _, Eq.refl _, Eq.refl _, fun x => x, fun x => x, fun _ h => h⟩

theorem stagePreserves_trans {s1 s2 s3 : TState}
    (h : StagePreserves s1 s2) (h2 : StagePreserves s2 s3) : StagePreserves s1 s3 :=
  ⟨h2.1.trans h.1, h2.2.1.trans h.2.1, h2.2.2.1.trans h.2.2.1,
   h2.2.2.2.1.trans h.2.2.2.1,
   fun x => h2.2.2.2.2.1 (h.2.2.2.2.1 x),
   fun x => h2.2.2.2.2.2.1 (h.2.2.2.2.2.1 x),
   fun dm hdm => h2.2.2.2.2.2.2 dm (h.2.2.2.2.2.2 dm hdm)⟩

/-- Helper: a successful load_model changes at most the model field. -/
theorem load_model_frame (E : ExtWorld) (s s1 : TState)
    (h : Transcriber.load_model E s = .ok s1) :
    s1.align_model = s.align_model ∧ s1.align_metadata = s.align_metadata ∧
    s1.diarize_model = s.diarize_model ∧ s1.device = s.device ∧
    s1.compute_type = s.compute_type ∧ s1.model_name = s.model_name := by
  unfold Transcriber.load_model at h
  by_cases hc : needs_model_load s = true
  · rw [if_pos hc] at h
    cases hw : E.whisperx_load_model s.model_name s.device s.compute_type with
    | error e =>
      rw [hw] at h
      exact Except.noConfusion h
    | ok m =>
      rw [hw] at h
      obtain rfl := (Except.ok.inj h)
      exact ⟨rfl, rfl, rfl, rfl, rfl, rfl⟩
  · rw [if_neg hc] at h
    obtain rfl := (Except.ok.inj h)
    exact ⟨rfl, rfl, rfl, rfl, rfl, rfl⟩

/-- Helper: a successful load_align_model changes at most the two alignment
fields, and never clears them. -/
theorem load_align_model_frame (E : ExtWorld) (s : TState) (lc : String)
    (s1 : TState) (h : Transcriber.load_align_model E s lc = .ok s1) :
    s1.model = s.model ∧ s1.diarize_model = s.diarize_model ∧
    s1.device = s.device ∧ s1.compute_type = s.compute_type ∧
    s1.model_name = s.model_name ∧
    (s.align_model.isSome → s1.align_model.isSome) ∧
    (s.align_metadata.isSome → s1.align_metadata.isSome) := by
  unfold Transcriber.load_align_model at h
  cases hc : needs_align_load s lc with
  | error e =>
    rw [hc] at h
    exact Except.noConfusion h
  | ok b =>
    cases b with
    | false =>
      rw [hc] at h
      obtain rfl := (Except.ok.inj h)
      exact ⟨rfl, rfl, rfl, rfl, rfl, fun x => x, fun x => x⟩
    | true =>
      rw [hc] at h
      dsimp only at h
      cases hw : E.whisperx_load_align_model lc s.device with
      | error e =>
        rw [hw] at h
        exact Except.noConfusion h
      | ok pr =>
        rcases pr with ⟨am, md⟩
        rw [hw] at h
        obtain rfl := (Except.ok.inj h)
        exact ⟨rfl, rfl, rfl, rfl, rfl, fun _ => rfl, fun _ => rfl⟩

/-- Helper: the state returned by the alignment stage is the input state or
the state produced by a successful load_align_model. -/
theorem t_align_part_state (E : ExtWorld) (s : TState) (audio : AudioData)
    (r : ResultDict) :
    (Transcriber.align_part E s audio r).2 = s ∨
    ∃ lc s1, Transcriber.load_align_model E s lc = .ok s1 ∧
      (Transcriber.align_part E s audio r).2 = s1 := by
  unfold Transcriber.align_part
  cases h1 : E.result_language r with
  | error e => exact Or.inl rfl
  | ok language =>
    dsimp only
    cases h2 : Transcriber.load_align_model E s language with
    | error e => exact Or.inl rfl
    | ok s1 =>
      dsimp only
      refine Or.inr ⟨language, s1, h2, ?_⟩
      cases h3 : E.result_segments r with
      | error e => rfl
      | ok segs =>
        dsimp only
        cases h4 : E.whisperx_align segs s1.align_model s1.align_metadata audio
            s1.device false with
        | error e => rfl
        | ok rr => rfl

/-- Helper: the gui.py alignment stage, same statement as for
transcriber.py. -/
theorem g_align_part_state (E : ExtWorld) (s : TState) (audio : AudioData)
    (r : ResultDict) :
    (Gui.align_part E s audio r).2 = s ∨
    ∃ lc s1, Gui.load_align_model E s lc = .ok s1 ∧
      (Gui.align_part E s audio r).2 = s1 := by
  unfold Gui.align_part
  cases h1 : E.result_language r with
  | error e => exact Or.inl rfl
  | ok language =>
    dsimp only
    cases h2 : Gui.load_align_model E s language with
    | error e => exact Or.inl rfl
    | ok s1 =>
      dsimp only
      refine Or.inr ⟨language, s1, h2, ?_⟩
      cases h3 : E.result_segments r with
      | error e => rfl
      | ok segs =>
        dsimp only
        cases h4 : E.whisperx_align segs s1.align_model s1.align_metadata audio
            s1.device false with
        | error e => rfl
        | ok rr => rfl

/-- Helper: transcriber.py load_diarize_model only returns normally by
skipping (the yaml NameError aborts every actual load), so a success leaves
the state untouched. -/
theorem t_load_diarize_model_ok (E : ExtWorld) (s s1 : TState)
    (h : Transcriber.load_diarize_model E s = .ok s1) : s1 = s := by
  unfold Transcriber.load_diarize_model at h
  cases h0 : s.diarize_model with
  | some dm =>
    rw [h0] at h
    exact (Except.ok.inj h).symm
  | none =>
    rw [h0] at h
    dsimp only at h
    cases h1 : E.speaker_diarization_init segmentation_path embedding_path
        "AgglomerativeClustering" with
    | error e =>
      rw [h1] at h
      exact Except.noConfusion h
    | ok pl =>
      rw [h1] at h
      dsimp only at h
      cases h2 : E.open_read diarize_config_path with
      | error e =>
        rw [h2] at h
        exact Except.noConfusion h
      | ok f =>
        rw [h2] at h
        exact Except.noConfusion h

/-- Helper: a successful gui.py load_diarize_model changes at most the
diarize_model field, and only from None to a loaded pipeline. -/
theorem g_load_diarize_model_frame (E : ExtWorld) (s s1 : TState)
    (h : Gui.load_diarize_model E s = .ok s1) :
    s1.model = s.model ∧ s1.align_model = s.align_model ∧
    s1.align_metadata = s.align_metadata ∧ s1.device = s.device ∧
    s1.compute_type = s.compute_type ∧ s1.model_name = s.model_name ∧
    (s1.diarize_model = s.diarize_model ∨
      (s.diarize_model = none ∧ s1.diarize_model.isSome)) := by
  unfold Gui.load_diarize_model at h
  cases h0 : s.diarize_model with
  | some dm =>
    rw [h0] at h
    obtain rfl := (Except.ok.inj h)
    exact ⟨rfl, rfl, rfl, rfl, rfl, rfl, Or.inl h0⟩
  | none =>
    rw [h0] at h
    dsimp only at h
    cases h1 : E.speaker_diarization_init segmentation_path embedding_path
        "AgglomerativeClustering" with
    | error e =>
      rw [h1] at h
      exact Except.noConfusion h
    | ok pl =>
      rw [h1] at h
      dsimp only at h
      cases h2 : E.open_read diarize_config_path with
      | error e =>
        rw [h2] at h
        exact Except.noConfusion h
      | ok f =>
        rw [h2] at h
        dsimp only at h
        cases h3 : E.yaml_safe_load f with
        | error e =>
          rw [h3] at h
          exact Except.noConfusion h
        | ok config =>
          rw [h3] at h
          dsimp only at h
          cases h4 : E.config_pipeline config with
          | error e =>
            rw [h4] at h
            exact Except.noConfusion h
          | ok pcfg =>
            rw [h4] at h
            dsimp only at h
            cases h5 : E.pipeline_instantiate pl pcfg with
            | error e =>
              rw [h5] at h
              exact Except.noConfusion h
            | ok dm =>
              rw [h5] at h
              obtain rfl := (Except.ok.inj h)
              exact ⟨rfl, rfl, rfl, rfl, rfl, rfl, Or.inr ⟨rfl, rfl⟩⟩

/-- Helper: the transcriber.py alignment stage satisfies StagePreserves. -/
theorem t_align_part_preserves (E : ExtWorld) (s : TState) (audio : AudioData)
    (r : ResultDict) : StagePreserves s ((Transcriber.align_part E s audio r).2) := by
  rcases t_align_part_state E s audio r with hs | ⟨lc, s1, hl, hs⟩
  · rw [hs]; exact stagePreserves_refl s
  · rw [hs]
    have hf := load_align_model_frame E s lc s1 hl
    exact ⟨hf.1, hf.2.2.1, hf.2.2.2.1, hf.2.2.2.2.1, hf.2.2.2.2.2.1,
      hf.2.2.2.2.2.2, fun dm hdm => by rw [hf.2.1, hdm]⟩

/-- Helper: the gui.py alignment stage satisfies StagePreserves. -/
theorem g_align_part_preserves (E : ExtWorld) (s : TState) (audio : AudioData)
    (r : ResultDict) : StagePreserves s ((Gui.align_part E s audio r).2) := by
  rcases g_align_part_state E s audio r with hs | ⟨lc, s1, hl, hs⟩
  · rw [hs]; exact stagePreserves_refl s
  · rw [hs]
    have hf := load_align_model_frame E s lc s1 hl
    exact ⟨hf.1, hf.2.2.1, hf.2.2.2.1, hf.2.2.2.2.1, hf.2.2.2.2.2.1,
      hf.2.2.2.2.2.2, fun dm hdm => by rw [hf.2.1, hdm]⟩

/-- Helper: the transcriber.py diarization stage satisfies StagePreserves;
in fact in transcriber.py it can never change the state at all. -/
theorem t_diarize_part_preserves (E : ExtWorld) (s : TState) (audio : AudioData)
    (r : ResultDict) : StagePreserves s ((Transcriber.diarize_part E s audio r).2) := by
  unfold Transcriber.diarize_part
  cases hld : Transcriber.load_diarize_model E s with
  | error e => exact stagePreserves_refl s
  | ok s1 =>
    obtain rfl := t_load_diarize_model_ok E s s1 hld
    dsimp only
    cases h1 : s1.diarize_model with
    | none => exact stagePreserves_refl s1
    | some dm =>
      dsimp only
      cases h2 : E.diarize_run dm (DiarizeArg.audioArg audio) with
      | error e => exact stagePreserves_refl s1
      | ok dsegs =>
        dsimp only
        cases h3 : E.assign_word_speakers dsegs r with
        | error e => exact stagePreserves_refl s1
        | ok rr => exact stagePreserves_refl s1

/-- Helper: the gui.py diarization stage satisfies StagePreserves. -/
theorem g_diarize_part_preserves (E : ExtWorld) (s : TState) (pth : String)
    (r : ResultDict) : StagePreserves s ((Gui.diarize_part E s pth r).2) := by
  unfold Gui.diarize_part
  cases hld : Gui.load_diarize_model E s with
  | error e => exact stagePreserves_refl s
  | ok s1 =>
    have hf := g_load_diarize_model_frame E s s1 hld
    have hpre : StagePreserves s s1 := by
      refine ⟨hf.1, hf.2.2.2.1, hf.2.2.2.2.1, hf.2.2.2.2.2.1, ?_, ?_, ?_⟩
      · intro hx; rw [hf.2.1]; exact hx
      · intro hx; rw [hf.2.2.1]; exact hx
      · intro dm hdm
        rcases hf.2.2.2.2.2.2 with hsame | ⟨hnone, _⟩
        · rw [hsame, hdm]
        · rw [hdm] at hnone; exact Option.noConfusion hnone
    dsimp only
    cases h1 : s1.diarize_model with
    | none => exact hpre
    | some dm =>
      dsimp only
      cases h2 : E.diarize_run dm (DiarizeArg.pathArg pth) with
      | error e => exact hpre
      | ok dsegs =>
        dsimp only
        cases h3 : E.assign_word_speakers dsegs r with
        | error e => exact hpre
        | ok rr => exact hpre

/-- Helper: the whole transcriber.py try block satisfies StagePreserves. -/
theorem t_try_body_preserves (E : ExtWorld) (s : TState) (p : String)
    (a d : Bool) : StagePreserves s ((Transcriber.try_body E s p a d).2) := by
  unfold Transcriber.try_body
  cases h1 : E.whisperx_load_audio p with
  | error e => exact stagePreserves_refl s
  | ok audio =>
    dsimp only
    cases h2 : s.model with
    | none => exact stagePreserves_refl s
    | some m =>
      dsimp only
      cases h3 : E.model_transcribe m audio 16 with
      | error e => exact stagePreserves_refl s
      | ok result0 =>
        dsimp only
        rcases h4 : (if a then Transcriber.align_part E s audio result0
            else (.ok result0, s)) with ⟨r1, s1⟩
        have hpre : StagePreserves s s1 := by
          by_cases ha : a = true
          · rw [ha] at h4
            simp only [if_true] at h4
            have hx := t_align_part_preserves E s audio result0
            rw [h4] at hx
            exact hx
          · have ha2 : a = false := by simpa using ha
            rw [ha2] at h4
            simp only [Bool.false_eq_true, if_false] at h4
            have hss : s1 = s := (congrArg Prod.snd h4).symm
            rw [hss]
            exact stagePreserves_refl s
        cases r1 with
        | error e => dsimp only; exact hpre
        | ok result1 =>
          dsimp only
          by_cases hd : d = true
          · rw [hd]
            simp only [if_true]
            exact stagePreserves_trans hpre (t_diarize_part_preserves E s1 audio result1)
          · have hd2 : d = false := by simpa using hd
            rw [hd2]
            simp only [Bool.false_eq_true, if_false]
            exact hpre

/-- Helper: the whole gui.py try block satisfies StagePreserves. -/
theorem g_try_body_preserves (E : ExtWorld) (s : TState) (p : String)
    (a d : Bool) : StagePreserves s ((Gui.try_body E s p a d).2) := by
  unfold Gui.try_body
  cases h1 : E.whisperx_load_audio p with
  | error e => exact stagePreserves_refl s
  | ok audio =>
    dsimp only
    cases h2 : s.model with
    | none => exact stagePreserves_refl s
    | some m =>
      dsimp only
      cases h3 : E.model_transcribe m audio 16 with
      | error e => exact stagePreserves_refl s
      | ok result0 =>
        dsimp only
        rcases h4 : (if a then Gui.align_part E s audio result0
            else (.ok result0, s)) with ⟨r1, s1⟩
        have hpre : StagePreserves s s1 := by
          by_cases ha : a = true
          · rw [ha] at h4
            simp only [if_true] at h4
            have hx := g_align_part_preserves E s audio result0
            rw [h4] at hx
            exact hx
          · have ha2 : a = false := by simpa using ha
            rw [ha2] at h4
            simp only [Bool.false_eq_true, if_false] at h4
            have hss : s1 = s := (congrArg Prod.snd h4).symm
            rw [hss]
            exact stagePreserves_refl s
        cases r1 with
        | error e => dsimp only; exact hpre
        | ok result1 =>
          dsimp only
          by_cases hd : d = true
          · rw [hd]
            simp only [if_true]
            exact stagePreserves_trans hpre (g_diarize_part_preserves E s1 p result1)
          · have hd2 : d = false := by simpa using hd
            rw [hd2]
            simp only [Bool.false_eq_true, if_false]
            exact hpre

/-- C1: evaluation at the failing input. In transcriber.py, with an existing
audio file, every external call succeeding and no diarization pipeline
cached, transcribe_audio with diarize set does not return the result of the
diarization stage: load_diarize_model raises NameError because yaml is not
The gui.py version of the same call, against the same external world, runs
all stages and returns the speaker-assigned result of the diarization
stage, which here is token 121 = assign_word_speakers applied to the
diarization output. -/
theorem c1_diarize_stage_yaml_failure :
    Transcriber.transcribe_audio extOK s0 "audio.wav" false true = (.ok none, s0m) ∧
    Gui.transcribe_audio extOK s0 "audio.wav" false true =
      (.ok (some 121), { s0m with diarize_model := some 12 }) ∧
    extOK.assign_word_speakers 21 10 = .ok 121 := by
  exact ⟨by decide, by decide, by decide⟩

/-- C2 is false as stated: when loading the acoustic model raises, the
exception escapes transcribe_audio instead of being caught and turned into
a None return, because load_model is called outside the try block. -/
theorem c2_cex_load_model_error_propagates :
    Transcriber.transcribe_audio extLoadFail s0 "audio.wav" false false =
      (.error (PyErr.libErr 1), s0) := by decide

/-- C2 (amended): transcribe_audio returns None for a missing file and
catches every exception raised inside the try block (audio loading,
inference, alignment, diarization), returning None; but an exception raised
while loading the acoustic model propagates to the caller, since load_model
is invoked outside the try block. Concretely, transcribe_audio propagates
an exception exactly when the file exists and load_model raises, and it
propagates that very exception with the state unchanged. -/
theorem c2_amended_exception_policy (E : ExtWorld) (s : TState) (p : String)
    (a d : Bool) :
    (∀ e s1, Transcriber.transcribe_audio E s p a d = (.error e, s1) →
      E.path_exists p = true ∧ Transcriber.load_model E s = .error e ∧ s1 = s) ∧
    (∀ e, E.path_exists p = true → Transcriber.load_model E s = .error e →
      Transcriber.transcribe_audio E s p a d = (.error e, s)) := by
  constructor
  · intro e s1 h
    unfold Transcriber.transcribe_audio at h
    by_cases hp : E.path_exists p = true
    · rw [hp] at h
      simp only [Bool.not_true, Bool.false_eq_true, if_false] at h
      cases hl : Transcriber.load_model E s with
      | error e2 =>
        simp only [hl] at h
        simp only [Prod.mk.injEq, Except.error.injEq] at h
        obtain ⟨rfl, rfl⟩ := h
        exact ⟨hp, rfl, rfl⟩
      | ok s2 =>
        simp only [hl] at h
        rcases htb : Transcriber.try_body E s2 p a d with ⟨r, s3⟩
        simp only [htb] at h
        cases r <;> simp at h
    · simp at hp
      rw [hp] at h
      simp at h
  · intro e hp hl
    unfold Transcriber.transcribe_audio
    rw [hp, hl]
    simp

/-- Witness for the amended C2 at a concrete input: the file exists, the
model load fails with library error 1, and transcribe_audio propagates
exactly that error without touching the state. -/
theorem c2_amended_exception_policy_witness :
    Transcriber.transcribe_audio extLoadFail s0 "other.wav" true true =
      (.error (PyErr.libErr 1), s0) :=
  (c2_amended_exception_policy extLoadFail s0 "other.wav" true true).2
    (PyErr.libErr 1) rfl rfl

/-- C3: load_model issues a new load exactly when no acoustic model is
cached or the cached model name differs from the current model_name
field; when it loads, the new cached model is whatever the library call
returns, and in every other case the state, cached model included, is
returned unchanged. -/
theorem c3_load_model_cache_policy (E : ExtWorld) (s : TState) :
    ((s.model = none ∨ ∃ m, s.model = some m ∧ m.model_name ≠ s.model_name) →
      Transcriber.load_model E s =
        match E.whisperx_load_model s.model_name s.device s.compute_type with
        | .error e => .error e
        | .ok m => .ok { s with model := some m }) ∧
    ((∃ m, s.model = some m ∧ m.model_name = s.model_name) →
      Transcriber.load_model E s = .ok s) := by
  constructor
  · intro hcond
    have hc : needs_model_load s = true := by
      rcases hcond with hnone | ⟨m, hm, hne⟩
      · unfold needs_model_load
        rw [hnone]
      · unfold needs_model_load
        rw [hm]
        simpa using hne
    unfold Transcriber.load_model
    rw [if_pos hc]
  · rintro ⟨m, hm, heq⟩
    have hc : needs_model_load s = false := by
      unfold needs_model_load
      rw [hm]
      simpa using heq
    unfold Transcriber.load_model
    rw [hc]
    simp

/-- Witness for C3 at concrete inputs: from the initial state a load is
issued and caches the returned model; from a state whose cached model
matches the requested name, the state is returned unchanged. -/
theorem c3_load_model_cache_policy_witness :
    Transcriber.load_model extOK s0 = .ok s0m ∧
    Transcriber.load_model extOK s0m = .ok s0m :=
  ⟨((c3_load_model_cache_policy extOK s0).1 (Or.inl rfl)).trans (by decide),
   (c3_load_model_cache_policy extOK s0m).2
     ⟨{ model_name := "small.en" }, rfl, rfl⟩⟩

/-- C4: every run of TranscriptionThread.run emits exactly one signal:
transcription_complete carrying the result exactly when transcribe_audio
returned a truthy result, and transcription_error carrying some message in
every other case (a falsy result, or an exception raised by
transcribe_audio); never both and never neither. -/
theorem c4_run_emits_exactly_one (E : ExtWorld) (s : TState) (f : String)
    (a d : Bool) :
    (TranscriptionThread.run E s f a d).1.length = 1 ∧
    (∀ r, (TranscriptionThread.run E s f a d).1 = [Emit.transcription_complete r] ↔
      (Gui.transcribe_audio E s f a d).1 = .ok (some r) ∧ E.dict_truthy r = true) ∧
    ((∃ r, (TranscriptionThread.run E s f a d).1 = [Emit.transcription_complete r]) ∨
     (∃ m, (TranscriptionThread.run E s f a d).1 = [Emit.transcription_error m])) := by
  unfold TranscriptionThread.run
  rcases hta : Gui.transcribe_audio E s f a d with ⟨r, s1⟩
  cases r with
  | error e =>
    refine ⟨rfl, ?_, Or.inr ⟨PyErr.message e, rfl⟩⟩
    intro rr
    constructor
    · intro hx
      exact absurd hx (by simp)
    · rintro ⟨hx, -⟩
      exact absurd hx (by simp)
  | ok o =>
    cases o with
    | none =>
      refine ⟨rfl, ?_,
        Or.inr ⟨"Transcription failed. Please check the console for errors.", rfl⟩⟩
      intro rr
      constructor
      · intro hx
        exact absurd hx (by simp)
      · rintro ⟨hx, -⟩
        exact absurd hx (by simp)
    | some rd =>
      dsimp only
      by_cases ht : E.dict_truthy rd = true
      · rw [if_pos ht]
        refine ⟨rfl, ?_, Or.inl ⟨rd, rfl⟩⟩
        intro rr
        constructor
        · intro hx
          simp only [List.cons.injEq, and_true] at hx
          obtain rfl := (Emit.transcription_complete.inj hx)
          exact ⟨rfl, ht⟩
        · rintro ⟨hx, -⟩
          simp only [Except.ok.injEq, Option.some.injEq] at hx
          rw [hx]
      · rw [if_neg ht]
        refine ⟨rfl, ?_,
          Or.inr ⟨"Transcription failed. Please check the console for errors.", rfl⟩⟩
        intro rr
        constructor
        · intro hx
          exact absurd hx (by simp)
        · rintro ⟨hx, htr⟩
          simp only [Except.ok.injEq, Option.some.injEq] at hx
          rw [← hx] at htr
          exact absurd htr ht

/-- Witness for C4 at a concrete input. -/
theorem c4_run_emits_exactly_one_witness :
    (TranscriptionThread.run extOK s0 "audio.wav" false false).1.length = 1 :=
  (c4_run_emits_exactly_one extOK s0 "audio.wav" false false).1

/-- C5: load_align_model issues a new load exactly when no alignment model
is cached or the cached metadata is for a different language; otherwise it
returns the state unchanged, reusing the cached alignment model and
metadata. The last conjunct records that, under the class invariant that
align_model and align_metadata are populated together, the two cases of
the claim are exhaustive. -/
theorem c5_load_align_model_cache_policy (E : ExtWorld) (s : TState)
    (lc : String) (hinv : s.align_model = none ↔ s.align_metadata = none) :
    ((s.align_model = none ∨
        ∃ md, s.align_metadata = some md ∧ md.language_code ≠ lc) →
      Transcriber.load_align_model E s lc =
        match E.whisperx_load_align_model lc s.device with
        | .error e => .error e
        | .ok (am, md) =>
          .ok { s with align_model := some am, align_metadata := some md }) ∧
    ((∃ am md, s.align_model = some am ∧ s.align_metadata = some md ∧
        md.language_code = lc) →
      Transcriber.load_align_model E s lc = .ok s) ∧
    ((s.align_model = none ∨
        ∃ md, s.align_metadata = some md ∧ md.language_code ≠ lc) ∨
      (∃ am md, s.align_model = some am ∧ s.align_metadata = some md ∧
        md.language_code = lc)) := by
  refine ⟨?_, ?_, ?_⟩
  · intro hcond
    have hc : needs_align_load s lc = .ok true := by
      cases ham : s.align_model with
      | none =>
        unfold needs_align_load
        rw [ham]
      | some am =>
        rcases hcond with hnone | ⟨md, hmd, hne⟩
        · exact absurd hnone (by rw [ham]; exact fun hx => Option.noConfusion hx)
        · unfold needs_align_load
          rw [ham, hmd]
          simpa using hne
    unfold Transcriber.load_align_model
    rw [hc]
  · rintro ⟨am, md, ham, hmd, heq⟩
    have hc : needs_align_load s lc = .ok false := by
      unfold needs_align_load
      rw [ham, hmd]
      simpa using heq
    unfold Transcriber.load_align_model
    rw [hc]
  · cases ham : s.align_model with
    | none => exact Or.inl (Or.inl rfl)
    | some am =>
      cases hmd : s.align_metadata with
      | none =>
        exfalso
        have := hinv.mpr hmd
        rw [ham] at this
        exact Option.noConfusion this
      | some md =>
        by_cases hl : md.language_code = lc
        · exact Or.inr ⟨am, md, rfl, rfl, hl⟩
        · exact Or.inl (Or.inr ⟨md, rfl, hl⟩)

/-- Witness for C5 at concrete inputs: from the initial state (nothing
cached) a load is issued and caches the pair the library returns; from a
state already holding the alignment model for the requested language, the
state is returned unchanged. -/
theorem c5_load_align_model_cache_policy_witness :
    Transcriber.load_align_model extOK s0 "en" =
      .ok { s0 with align_model := some 4,
                    align_metadata := some { language_code := "en" } } ∧
    Transcriber.load_align_model extOK sAligned "en" = .ok sAligned :=
  ⟨((c5_load_align_model_cache_policy extOK s0 "en" (by simp [s0, initState])).1
      (Or.inl rfl)).trans (by decide),
   (c5_load_align_model_cache_policy extOK sAligned "en" (by simp [sAligned, s0m, s0, initState])).2.1
     ⟨4, { language_code := "en" }, rfl, rfl, rfl⟩⟩

/-- C6: once the diarization pipeline is cached (diarize_model is some
pipeline), no operation of either transcriber class reloads or replaces
it: load_diarize_model returns immediately with the state unchanged, and
load_model, load_align_model, set_model and transcribe_audio all leave the
cached pipeline in place. -/
theorem c6_diarize_model_persistent (E : ExtWorld) (s : TState)
    (dm : DiarizeModelObj) (h : s.diarize_model = some dm) :
    Transcriber.load_diarize_model E s = .ok s ∧
    Gui.load_diarize_model E s = .ok s ∧
    (∀ s1, Transcriber.load_model E s = .ok s1 → s1.diarize_model = some dm) ∧
    (∀ lc s1, Transcriber.load_align_model E s lc = .ok s1 →
      s1.diarize_model = some dm) ∧
    (∀ n, (Transcriber.set_model s n).diarize_model = some dm) ∧
    (∀ p a d, ((Transcriber.transcribe_audio E s p a d).2).diarize_model = some dm) ∧
    (∀ p a d, ((Gui.transcribe_audio E s p a d).2).diarize_model = some dm) := by
  refine ⟨?_, ?_, ?_, ?_, ?_, ?_, ?_⟩
  · unfold Transcriber.load_diarize_model
    rw [h]
  · unfold Gui.load_diarize_model
    rw [h]
  · intro s1 h1
    rw [(load_model_frame E s s1 h1).2.2.1, h]
  · intro lc s1 h1
    rw [(load_align_model_frame E s lc s1 h1).2.1, h]
  · intro n
    exact h
  · intro p a d
    unfold Transcriber.transcribe_audio
    cases hp : E.path_exists p with
    | false => exact h
    | true =>
      simp only [Bool.not_true, Bool.false_eq_true, if_false]
      cases hl : Transcriber.load_model E s with
      | error e => exact h
      | ok s1 =>
        dsimp only
        have hd1 : s1.diarize_model = some dm := by
          rw [(load_model_frame E s s1 hl).2.2.1, h]
        rcases htb : Transcriber.try_body E s1 p a d with ⟨r1, s2⟩
        have hpre := t_try_body_preserves E s1 p a d
        rw [htb] at hpre
        have hd2 : s2.diarize_model = some dm := hpre.2.2.2.2.2.2 dm hd1
        cases r1 with
        | ok rr => exact hd2
        | error e => exact hd2
  · intro p a d
    unfold Gui.transcribe_audio
    cases hp : E.path_exists p with
    | false => exact h
    | true =>
      simp only [Bool.not_true, Bool.false_eq_true, if_false]
      cases hl : Gui.load_model E s with
      | error e => exact h
      | ok s1 =>
        dsimp only
        have hd1 : s1.diarize_model = some dm := by
          rw [(load_model_frame E s s1 hl).2.2.1, h]
        rcases htb : Gui.try_body E s1 p a d with ⟨r1, s2⟩
        have hpre := g_try_body_preserves E s1 p a d
        rw [htb] at hpre
        have hd2 : s2.diarize_model = some dm := hpre.2.2.2.2.2.2 dm hd1
        cases r1 with
        | ok rr => exact hd2
        | error e => exact hd2

/-- Witness for C6 at a concrete input: a state with a cached pipeline. -/
theorem c6_diarize_model_persistent_witness :
    Transcriber.load_diarize_model extOK sDia = .ok sDia ∧
    ((Gui.transcribe_audio extOK sDia "audio.wav" true true).2).diarize_model =
      some 12 :=
  ⟨(c6_diarize_model_persistent extOK sDia 12 rfl).1,
   (c6_diarize_model_persistent extOK sDia 12 rfl).2.2.2.2.2.2 "audio.wav" true true⟩

/-- C7: for an audio file path that does not exist, both versions of
transcribe_audio return None immediately and the transcriber state is
completely unchanged, so in particular no model is loaded and no cached
model field is modified. -/
theorem c7_missing_file_returns_none (E : ExtWorld) (s : TState) (p : String)
    (a d : Bool) (h : E.path_exists p = false) :
    Transcriber.transcribe_audio E s p a d = (.ok none, s) ∧
    Gui.transcribe_audio E s p a d = (.ok none, s) := by
  unfold Transcriber.transcribe_audio Gui.transcribe_audio
  rw [h]
  simp

/-- Witness for C7 at a concrete input: an external world in which no path
exists. -/
theorem c7_missing_file_returns_none_witness :
    Transcriber.transcribe_audio extNoFile s0 "audio.wav" true true = (.ok none, s0) ∧
    Gui.transcribe_audio extNoFile s0 "audio.wav" true true = (.ok none, s0) :=
  c7_missing_file_returns_none extNoFile s0 "audio.wav" true true rfl

/-- C8 is false as stated: from the same state, with the same arguments and
the same external world, the two WhisperXTranscriber classes return
different results for a diarization run. -/
theorem c8_cex_classes_differ :
    Transcriber.transcribe_audio extOK s0 "audio.wav" false true ≠
      Gui.transcribe_audio extOK s0 "audio.wav" false true := by decide

/-- C8 (amended): the two classes agree on load_model, load_align_model and
set_model, and transcribe_audio agrees between the two classes whenever
diarize is false; the diarization stage is where they differ. -/
theorem c8_amended_agree_without_diarize (E : ExtWorld) (s : TState) :
    (∀ p a, Transcriber.transcribe_audio E s p a false =
      Gui.transcribe_audio E s p a false) ∧
    Transcriber.load_model E s = Gui.load_model E s ∧
    (∀ lc, Transcriber.load_align_model E s lc = Gui.load_align_model E s lc) ∧
    (∀ n, Transcriber.set_model s n = Gui.set_model s n) :=
  ⟨fun _ _ => rfl, rfl, fun _ => rfl, fun _ => rfl⟩

/-- C9: set_model, the identical gui.py set_model, and the GUI change_model
handler update exactly the model_name and model fields: model_name becomes
the given name, model is cleared to None, and the other five fields are
unchanged. -/
theorem c9_set_model_frame (s : TState) (n : String) :
    (Transcriber.set_model s n).model_name = n ∧
    (Transcriber.set_model s n).model = none ∧
    (Transcriber.set_model s n).align_model = s.align_model ∧
    (Transcriber.set_model s n).align_metadata = s.align_metadata ∧
    (Transcriber.set_model s n).diarize_model = s.diarize_model ∧
    (Transcriber.set_model s n).device = s.device ∧
    (Transcriber.set_model s n).compute_type = s.compute_type ∧
    Gui.set_model s n = Transcriber.set_model s n ∧
    Gui.change_model s n = Transcriber.set_model s n :=
  ⟨rfl, rfl, rfl, rfl, rfl, rfl, rfl, rfl, rfl⟩

/-- C10: when the try block fails partway through (so transcribe_audio
returns None), the state returned is exactly the state the pipeline had
reached: the acoustic model loaded at the start of the call stays cached,
and cached alignment and diarization models are not rolled back. -/
theorem c10_error_path_keeps_models (E : ExtWorld) (s s1 s2 : TState)
    (p : String) (a d : Bool) (e : PyErr)
    (hp : E.path_exists p = true)
    (hload : Transcriber.load_model E s = .ok s1)
    (hbody : Transcriber.try_body E s1 p a d = (.error e, s2)) :
    Transcriber.transcribe_audio E s p a d = (.ok none, s2) ∧
    s2.model = s1.model ∧
    (s1.align_model.isSome → s2.align_model.isSome) ∧
    (s1.align_metadata.isSome → s2.align_metadata.isSome) ∧
    (s1.diarize_model.isSome → s2.diarize_model.isSome) := by
  have hpre := t_try_body_preserves E s1 p a d
  rw [hbody] at hpre
  refine ⟨?_, hpre.1, hpre.2.2.2.2.1, hpre.2.2.2.2.2.1, ?_⟩
  · unfold Transcriber.transcribe_audio
    rw [hp]
    simp only [Bool.not_true, Bool.false_eq_true, if_false]
    rw [hload]
    dsimp only
    rw [hbody]
  · intro hs
    obtain ⟨dmv, hdm⟩ := Option.isSome_iff_exists.mp hs
    rw [hpre.2.2.2.2.2.2 dmv hdm]
    rfl

/-- Witness for C10 at a concrete input: the alignment inference call fails
after the acoustic and alignment models were loaded; transcribe_audio
returns None and both loaded models stay cached. -/
theorem c10_error_path_keeps_models_witness :
    Transcriber.transcribe_audio extAlignFail s0 "audio.wav" true false =
      (.ok none, sAligned) ∧
    sAligned.model = s0m.model :=
  ⟨(c10_error_path_keeps_models extAlignFail s0 s0m sAligned "audio.wav" true false
      (PyErr.libErr 2) rfl rfl rfl).1,
   (c10_error_path_keeps_models extAlignFail s0 s0m sAligned "audio.wav" true false
      (PyErr.libErr 2) rfl rfl rfl).2.1⟩
